import Mathlib

/-!
Verification development for the Firebase Hosting deployment module
(`src/firebase.py`) of the splitwise-free-analytics repository.

The Python module is shallowly embedded as pure Lean functions:

* byte strings become `List Nat` (one element per byte), hex strings become
  `List Nat` of hex-digit (nibble) values, two per byte, exactly as produced
  by Python `bytes.hex()` and consumed by the client script `hexToBytes`;
* the AES-GCM library primitive (`cryptography.hazmat...AESGCM` on the
  producer side, `crypto.subtle` on the consumer side) is a parameter of
  type `AEAD`: the repository code under verification is the framing around
  it (random key/nonce handling, `nonce ++ ciphertext` concatenation, hex
  encoding, and the 12-byte slicing performed by `decryptDashboard`);
* randomness (`os.urandom`) is modelled by passing the drawn bytes
  explicitly: each call of the encryption routine receives the fresh key
  and nonce bytes drawn for that call;
* file-system state, environment variables and external services
  (Firestore, the `firebase` CLI subprocess) are explicit state/oracle
  records, with fallible operations modelled atomically: an operation
  either succeeds and has its effect, or fails and leaves state unchanged.
-/

/-- Hex-encode a byte list as the list of its hex-digit (nibble) values,
high nibble first: models Python `bytes.hex()` at the level of digit
values (`encodeHexDigits l` has twice the length of `l`). -/
def encodeHexDigits : List Nat → List Nat
  | [] => []
  | b :: t => b / 16 :: b % 16 :: encodeHexDigits t

/-- Decode a list of hex-digit values back into bytes, two digits per byte:
models the client script `hexToBytes` (`bytes[i/2] = parseInt(hex.substr(i,2),16)`). -/
def decodeHexDigits : List Nat → List Nat
  | hi :: lo :: t => (hi * 16 + lo) :: decodeHexDigits t
  | _ => []

/-- Interface of the AES-GCM library primitive, which is external to the
repository. `enc key nonce plaintext` returns `ciphertext ++ tag` (the tag
is appended by GCM); `dec key nonce ct` returns the plaintext or `none`
when authentication fails. The repository's theorems are stated relative
to the library contract (round trip, 16-byte tag, authenticity),
supplied as hypotheses where needed. -/
structure AEAD where
  enc : List Nat → List Nat → List Nat → List Nat
  dec : List Nat → List Nat → List Nat → Option (List Nat)

/-- Embedding of `encrypt_dashboard_with_random_key` (src/firebase.py:91-118).
`key` and `nonce` are the bytes drawn by `os.urandom(32)` and
`os.urandom(12)` for this call; `html` is the UTF-8 byte sequence of the
dashboard string. Returns `(encrypted_hex, key_hex)` where
`encrypted_hex = hex (nonce ++ A.enc key nonce html)`. -/
def encrypt_dashboard_with_random_key (A : AEAD) (key nonce html : List Nat) :
    List Nat × List Nat :=
  let ciphertext := A.enc key nonce html
  let encrypted := nonce ++ ciphertext
  (encodeHexDigits encrypted, encodeHexDigits key)

/-- Embedding of the embedded client script `decryptDashboard`
(src/firebase.py:373-387): decode the hex payload, use the leading 12
bytes as nonce and the rest as `ciphertext ++ tag`, and run authenticated
decryption with the hex-decoded key. -/
def decryptDashboard (A : AEAD) (encryptedHex keyHex : List Nat) : Option (List Nat) :=
  let encrypted := decodeHexDigits encryptedHex
  let nonce := encrypted.take 12
  let ciphertext := encrypted.drop 12
  let key := decodeHexDigits keyHex
  A.dec key nonce ciphertext

/-- Flip bit `k` of the byte at index `i` of a byte list (used to state the
tamper-detection property). -/
def flipBit (l : List Nat) (i k : Nat) : List Nat :=
  l.set i ((l.getD i 0) ^^^ 2 ^ k)

/-- XOR of all bytes of a list (helper for the concrete AEAD instance used
by witnesses). -/
def xorChecksum : List Nat → Nat
  | [] => 0
  | b :: t => b ^^^ xorChecksum t

/-- 16-byte tag of the concrete witness AEAD: an XOR checksum byte followed
by fifteen zero bytes.  A single-bit flip anywhere in `msg` flips the same
bit of the checksum, so the tag check below detects every single-bit flip. -/
def checksumTag (msg : List Nat) : List Nat :=
  xorChecksum msg :: List.replicate 15 0

/-- A concrete executable `AEAD` instance satisfying the library-contract
hypotheses (round trip, `length = plaintext + 16`, single-bit-flip
rejection) that the claim theorems take as hypotheses; used only to
instantiate witnesses at concrete inputs. -/
def checksumAEAD : AEAD where
  enc := fun _ _ msg => msg ++ checksumTag msg
  dec := fun _ _ ct =>
    if ct.length < 16 then none
    else
      let msg := ct.take (ct.length - 16)
      let tag := ct.drop (ct.length - 16)
      if tag = checksumTag msg then some msg else none

/-- Python `str.strip()` whitespace predicate (ASCII portion). -/
def isPySpace (c : Char) : Bool :=
  c = ' ' || c = '\t' || c = '\n' || c = '\r' || c = '\x0b' || c = '\x0c'

/-- Python `str.strip()`: remove leading and trailing whitespace. -/
def pyStrip (l : List Char) : List Char :=
  ((l.dropWhile isPySpace).reverse.dropWhile isPySpace).reverse

/-- Python `s.split("\n")`. -/
def splitNL : List Char → List (List Char)
  | [] => [[]]
  | c :: rest =>
    if c = '\n' then [] :: splitNL rest
    else
      match splitNL rest with
      | h :: t => (c :: h) :: t
      | [] => [[c]]

/-- Greedy match of `[0-9;]*m` (the part of the ANSI-escape pattern after
the opening bracket): skip the digit/semicolon run, then require `m`; on
success return the remainder after the `m`. -/
def ansiTail (rest : List Char) : Option (List Char) :=
  match rest.dropWhile (fun c => c.isDigit || c = ';') with
  | 'm' :: rem => some rem
  | _ => none

/-- Attempt to match the ANSI-escape regex `\x1b\[[0-9;]*m|\[[0-9;]*m`
(src/firebase.py:262) at the head of the list; on success return the
remainder after the match.  The first alternative requires `ESC [` at the
position, the second a bare `[`; the character class `[0-9;]` is matched
greedily, and since `m` is not in the class no backtracking arises. -/
def tryAnsi (l : List Char) : Option (List Char) :=
  match l with
  | [] => none
  | [c1] => if c1 = '[' then ansiTail [] else none
  | c1 :: c2 :: rest =>
    if c1 = '\x1b' ∧ c2 = '[' then ansiTail rest
    else if c1 = '[' then ansiTail (c2 :: rest)
    else none

/-- Fuelled scanner implementing `re.sub(pattern, '', s)` for the ANSI
pattern above: at each position, remove a match if one starts there,
otherwise keep the character.  Every step consumes at least one input
character, so fuel `≥ length` computes the total function. -/
def stripAnsiF : Nat → List Char → List Char
  | 0, l => l
  | _ + 1, [] => []
  | f + 1, c :: rest =>
    match tryAnsi (c :: rest) with
    | some rem => stripAnsiF f rem
    | none => c :: stripAnsiF f rest

/-- `ansi_escape.sub('', l)`: strip all ANSI escape sequences. -/
def stripAnsi (l : List Char) : List Char := stripAnsiF l.length l

/-- The URL-announcing marker `"Hosting URL:"` searched for in the deploy
tool's stdout (src/firebase.py:265). -/
def hostingMarker : List Char := "Hosting URL:".data

/-- Fuelled implementation of Python `s.split(sep)` for a non-empty
separator: left-to-right, non-overlapping.  `acc` holds the current
segment reversed.  Fuel `≥ length s` computes the total function. -/
def splitOnSubF (sep : List Char) : Nat → List Char → List Char → List (List Char)
  | 0, s, acc => [acc.reverse ++ s]
  | _ + 1, [], acc => [acc.reverse]
  | f + 1, c :: rest, acc =>
    if sep ≠ [] ∧ sep <+: (c :: rest) then
      acc.reverse :: splitOnSubF sep f ((c :: rest).drop sep.length) []
    else
      splitOnSubF sep f rest (c :: acc)

/-- Python `s.split(sep)` (non-empty `sep`). -/
def splitOnSub (sep s : List Char) : List (List Char) :=
  splitOnSubF sep s.length s []

/-- Python `s.split(sep)[-1]`: the segment after the last separator
occurrence (the whole string when the separator does not occur). -/
def pySplitLast (sep s : List Char) : List Char :=
  (splitOnSub sep s).getLastD []

/-- The stdout-parsing loop of `deploy` (src/firebase.py:264-269): scan the
lines in order; on the first line containing `"Hosting URL:"`, return
`ansi_escape.sub('', line.split("Hosting URL:")[-1].strip()).strip()`. -/
def deployParseURL : List (List Char) → Option (List Char)
  | [] => none
  | line :: rest =>
    if hostingMarker <:+: line then
      some (pyStrip (stripAnsi (pyStrip (pySplitLast hostingMarker line))))
    else deployParseURL rest

/-- JSON values as produced by `json.load` (numbers restricted to integers;
`.firebaserc` project identifiers are strings, which is the case the
claims are about). -/
inductive JsonVal where
  | null
  | bool (b : Bool)
  | num (n : Int)
  | str (s : String)
  | arr (elems : List JsonVal)
  | obj (fields : List (String × JsonVal))

/-- Key lookup in a JSON object as `json.load` + `dict.get` behave: with
duplicate keys the later entry wins (later entries overwrite earlier ones
when Python builds the dict). -/
def lookupLast (fields : List (String × JsonVal)) (k : String) : Option JsonVal :=
  match fields with
  | [] => none
  | (k', v) :: rest =>
    match lookupLast rest k with
    | some r => some r
    | none => if k' = k then some v else none

/-- Python truthiness of a JSON-derived value (`if project_id:`). -/
def pyTruthy : JsonVal → Bool
  | .null => false
  | .bool b => b
  | .num n => n != 0
  | .str s => s != ""
  | .arr l => !l.isEmpty
  | .obj l => !l.isEmpty

/-- Python `str()` of a JSON-derived value, as interpolated by the f-string
`f"https://{project_id}.web.app"`.  Scalar cases are exact; the printed
form of composite values (lists/dicts) is not modelled precisely, as no
claim concerns a composite `projects.default`. -/
def pyStr : JsonVal → String
  | .null => "None"
  | .bool b => if b then "True" else "False"
  | .num n => toString n
  | .str s => s
  | .arr _ => "<list>"
  | .obj _ => "<dict>"

/-- The `.firebaserc` fallback of `deploy` (src/firebase.py:271-281):
`json.load` the file, take `.get("projects", {}).get("default")`, and when
that is truthy return `https://{project_id}.web.app`.  The input is the
parse result (`none` models a missing or unparsable file, in which case
the `except` clause swallows the error); `.get` on a non-dict raises
`AttributeError`, also swallowed. -/
def firebasercFallback : Option JsonVal → Option (List Char)
  | none => none
  | some v =>
    match v with
    | .obj fields =>
      match (lookupLast fields "projects").getD (.obj []) with
      | .obj pf =>
        match lookupLast pf "default" with
        | some pid =>
          if pyTruthy pid then some ("https://" ++ pyStr pid ++ ".web.app").data else none
        | none => none
      | _ => none
    | _ => none

/-- Outcome of one `subprocess.run` invocation: normal completion with an
exit status and captured output, or one of the exception classes the code
distinguishes (`FileNotFoundError`, `subprocess.TimeoutExpired`, any other
`Exception`). -/
inductive ProcResult where
  | completed (returncode : Int) (stdout stderr : List Char)
  | raiseNotFound
  | raiseTimeout
  | raiseOther
deriving DecidableEq

/-- One logging call: `log_info message` or `log_error message detail`
(src/logging_utils.py; `log_error` additionally carries the detail shown
in verbose mode). -/
inductive LogEvent where
  | info (msg : String)
  | error (msg : String) (detail : List Char)
deriving DecidableEq

/-- External world consumed by `deploy`: the two subprocess strategies as
functions of (command, timeout-seconds), the parsed `.firebaserc`, and the
`FIREBASE_TOKEN` / `FIREBASE_PROJECT_ID` environment variables. -/
structure DeployWorld where
  runDirect : List String → Nat → ProcResult
  runShell : String → Nat → ProcResult
  firebaserc : Option JsonVal
  envToken : Option String
  envProject : Option String

/-- Command construction of `deploy` (src/firebase.py:213-217). -/
def buildCmdParts (project token : Option String) : List String :=
  ["firebase", "deploy", "--only", "hosting"] ++
  (match project with | some p => ["--project", p] | none => []) ++
  (match token with | some t => ["--token", t] | none => [])

/-- Post-invocation processing of `deploy` (src/firebase.py:255-281): a
non-zero exit logs the stderr and fails; otherwise parse stdout for the
hosting URL, falling back to `.firebaserc` (the final `return None` on
line 281 logs nothing). -/
def deployAfterRun (rc : Int) (stdout stderr : List Char) (frc : Option JsonVal) :
    Option (List Char) × List LogEvent :=
  if rc ≠ 0 then (none, [.error "ERROR: Firebase deploy failed" stderr])
  else
    match deployParseURL (splitNL stdout) with
    | some url => (some url, [])
    | none => (firebasercFallback frc, [])

/-- The strategy-2 shell command of `deploy` (src/firebase.py:232-233):
source the nvm profile, then re-issue the same command line. -/
def shellCmd (w : DeployWorld) : String :=
  "source \"$HOME/.nvm/nvm.sh\" 2>/dev/null; " ++
    String.intercalate " " (buildCmdParts w.envProject w.envToken)

/-- Embedding of `deploy` (src/firebase.py:201-281).
Strategy 1 is the direct spawn with `timeout=120`;
`FileNotFoundError` triggers strategy 2 (`shellCmd`, also `timeout=120`)
whose bare `except Exception` catches every failure including a timeout;
a strategy-1 timeout has its own handler and log message.  Returns the
URL (or `none`) and the log events emitted. -/
def deploy (w : DeployWorld) : Option (List Char) × List LogEvent :=
  let cmdParts := buildCmdParts w.envProject w.envToken
  match w.runDirect cmdParts 120 with
  | .completed rc out err => deployAfterRun rc out err w.firebaserc
  | .raiseNotFound =>
    (match w.runShell (shellCmd w) 120 with
     | .completed rc out err => deployAfterRun rc out err w.firebaserc
     | _ => (none, [.info "ERROR: Firebase deploy failed"]))
  | .raiseTimeout => (none, [.info "ERROR: Firebase deploy timed out"])
  | .raiseOther => (none, [.info "ERROR: Firebase deploy failed"])

/-- Environment of the publish pipeline: the `FIREBASE_SERVICE_ACCOUNT`
variable and the fallibility of the external Firestore operations, plus
the two configuration values read from `src.config` (that module is not
part of the sources; its two fields are modelled from the spec as opaque
configuration inputs: the recipient e-mail list string and the dashboard
title). -/
structure FirebaseEnv where
  serviceAccount : Option String
  initOk : Bool
  firestoreSetOk : Bool
  recipientEmail : Option String
  title : String

/-- Embedding of `_init_firebase_admin` (src/firebase.py:22-44): fails when
`FIREBASE_SERVICE_ACCOUNT` is unset, or when parsing the credentials /
initializing the SDK raises (`initOk = false`). -/
def init_firebase_admin (e : FirebaseEnv) : Bool :=
  match e.serviceAccount with
  | none => false
  | some _ => e.initOk

/-- Embedding of `_store_key_in_firestore` (src/firebase.py:47-75): fails
when initialization fails or the Firestore `set` raises.  The written
document content (key and e-mail list) does not influence success. -/
def store_key_in_firestore (e : FirebaseEnv) (keyHex : String)
    (allowedEmails : List String) : Bool :=
  if init_firebase_admin e then e.firestoreSetOk else false

/-- Embedding of `get_allowed_emails` (src/firebase.py:78-88): split the
configured recipient string on commas, trim and lowercase each entry,
drop empties; an unset or empty configuration yields `[]`. -/
def get_allowed_emails (recipientEmail : Option String) : List String :=
  match recipientEmail with
  | none => []
  | some r =>
    if r = "" then []
    else ((r.splitOn ",").map (fun e => e.trim.toLower)).filter (fun e => e != "")

/-- Fuelled implementation of Python `str.replace` (all occurrences,
left-to-right, non-overlapping) on character lists.  Fuel `≥ length`
computes the total function. -/
def pyReplaceF (pat rep : List Char) : Nat → List Char → List Char
  | 0, s => s
  | _ + 1, [] => []
  | f + 1, c :: rest =>
    if pat ≠ [] ∧ pat <+: (c :: rest) then
      rep ++ pyReplaceF pat rep f ((c :: rest).drop pat.length)
    else
      c :: pyReplaceF pat rep f rest

/-- Python `s.replace(pat, rep)` (non-empty `pat`). -/
def pyReplace (s pat rep : List Char) : List Char := pyReplaceF pat rep s.length s

/-- `content.replace(pat, rep)` on `String`s. -/
def strReplace (s pat rep : String) : String := String.mk (pyReplace s.data pat.data rep.data)

/-- The title placeholder literal (src/firebase.py:181). -/
def titlePlaceholder : String := "__TITLE_PLACEHOLDER__"

/-- The ciphertext-payload placeholder literal (src/firebase.py:182). -/
def dataPlaceholder : String := "__DASHBOARD_DATA_PLACEHOLDER__"
/-- Segment of the canonical placeholder template of `restore_index_html`
(src/firebase.py:293-467) before the first `__TITLE_PLACEHOLDER__`. -/
def canonicalChunk0 : String :=
  "<!DOCTYPE html>\n<html lang=\"en\">\n<head>\n    <meta charset=\"utf-8\">\n    <meta name=\"viewport\" content=\"width=device-width, initial-scale=1\">\n" ++
  "    <title>"

/-- Template segment between the two `__TITLE_PLACEHOLDER__` occurrences. -/
def canonicalChunk1 : String :=
  "</title>\n    <script defer src=\"/__/firebase/12.6.0/firebase-app-compat.js\"></script>\n    <script defer src=\"/__/firebase/12.6.0/firebase-auth-compat.js\"></script>\n" ++
  "    <script defer src=\"/__/firebase/12.6.0/firebase-firestore-compat.js\"></script>\n    <script defer src=\"/__/firebase/init.js\"></script>\n" ++
  "    <style>\n        /* Login page styles - scoped to avoid conflicts with dashboard */\n        body:not(.authenticated) \x7b font-family: -apple-system, BlinkMacSystemFont, 'Segoe UI', Roboto, Oxygen, Ubuntu, sans-serif; background: linear-gradient(135deg, #1a1a2e 0%, #16213e 50%, #0f3460 100%); min-height: 100vh; display: flex; align-items: center; justify-content: center; margin: 0; padding: 0; \x7d\n" ++
  "        body.authenticated \x7b display: block; \x7d\n        #login-container \x7b background: rgba(255, 255, 255, 0.95); padding: 48px 40px; border-radius: 16px; box-shadow: 0 25px 50px -12px rgba(0, 0, 0, 0.4); text-align: center; max-width: 400px; width: 90%; \x7d\n" ++
  "        #login-container .logo \x7b font-size: 48px; margin-bottom: 16px; \x7d\n        #login-container h1 \x7b color: #1a1a2e; font-size: 24px; font-weight: 600; margin-bottom: 8px; \x7d\n" ++
  "        #login-container .subtitle \x7b color: #666; font-size: 14px; margin-bottom: 32px; \x7d\n        #sign-in-btn \x7b display: inline-flex; align-items: center; gap: 12px; background: #4285f4; color: white; border: none; padding: 14px 28px; border-radius: 8px; font-size: 16px; font-weight: 500; cursor: pointer; transition: all 0.2s ease; box-shadow: 0 4px 14px rgba(66, 133, 244, 0.4); \x7d\n" ++
  "        #sign-in-btn:hover \x7b background: #3367d6; transform: translateY(-2px); box-shadow: 0 6px 20px rgba(66, 133, 244, 0.5); \x7d\n" ++
  "        .google-icon \x7b width: 20px; height: 20px; background: white; border-radius: 4px; padding: 2px; \x7d\n" ++
  "        #login-container #error \x7b color: #dc3545; font-size: 14px; margin-top: 20px; padding: 12px; background: #fff5f5; border-radius: 8px; display: none; \x7d\n" ++
  "        #sign-out-btn \x7b display: none; margin-top: 16px; background: #6c757d; color: white; border: none; padding: 10px 20px; border-radius: 6px; font-size: 14px; cursor: pointer; transition: background 0.2s ease; \x7d\n" ++
  "        #sign-out-btn:hover \x7b background: #5a6268; \x7d\n        #login-container #loading \x7b color: #666; font-size: 14px; margin-top: 20px; \x7d\n" ++
  "        .spinner \x7b display: inline-block; width: 20px; height: 20px; border: 2px solid #ccc; border-top-color: #4285f4; border-radius: 50%; animation: spin 1s linear infinite; margin-right: 8px; vertical-align: middle; \x7d\n" ++
  "        @keyframes spin \x7b to \x7b transform: rotate(360deg); \x7d \x7d\n        .hidden \x7b display: none !important; \x7d\n" ++
  "        #dashboard-container \x7b display: none; width: 100%; min-height: 100vh; \x7d\n        body.authenticated #dashboard-container \x7b display: block; \x7d\n" ++
  "        body.authenticated #login-container \x7b display: none; \x7d\n    </style>\n</head>\n<body>\n    <div id=\"login-container\">\n" ++
  "        <div class=\"logo\">ðŸ“Š</div>\n        <h1>"

/-- Template segment between the second `__TITLE_PLACEHOLDER__` and
`__DASHBOARD_DATA_PLACEHOLDER__`. -/
def canonicalChunk2 : String :=
  "</h1>\n        <p class=\"subtitle\">Sign in to view your expense dashboard</p>\n        <button id=\"sign-in-btn\" onclick=\"signIn()\">\n" ++
  "            <svg class=\"google-icon\" viewBox=\"0 0 24 24\"><path fill=\"#4285F4\" d=\"M22.56 12.25c0-.78-.07-1.53-.2-2.25H12v4.26h5.92c-.26 1.37-1.04 2.53-2.21 3.31v2.77h3.57c2.08-1.92 3.28-4.74 3.28-8.09z\"/><path fill=\"#34A853\" d=\"M12 23c2.97 0 5.46-.98 7.28-2.66l-3.57-2.77c-.98.66-2.23 1.06-3.71 1.06-2.86 0-5.29-1.93-6.16-4.53H2.18v2.84C3.99 20.53 7.7 23 12 23z\"/><path fill=\"#FBBC05\" d=\"M5.84 14.09c-.22-.66-.35-1.36-.35-2.09s.13-1.43.35-2.09V7.07H2.18C1.43 8.55 1 10.22 1 12s.43 3.45 1.18 4.93l2.85-2.22.81-.62z\"/><path fill=\"#EA4335\" d=\"M12 5.38c1.62 0 3.06.56 4.21 1.64l3.15-3.15C17.45 2.09 14.97 1 12 1 7.7 1 3.99 3.47 2.18 7.07l3.66 2.84c.87-2.6 3.3-4.53 6.16-4.53z\"/></svg>\n" ++
  "            Sign in with Google\n        </button>\n        <div id=\"error\"></div>\n        <button id=\"sign-out-btn\" onclick=\"signOut()\">Try a different account</button>\n" ++
  "        <div id=\"loading\" class=\"hidden\"><span class=\"spinner\"></span>Checking authorization...</div>\n    </div>\n" ++
  "    <div id=\"dashboard-container\"></div>\n    <script id=\"dashboard-data\" type=\"text/plain\">"

/-- Template segment after `__DASHBOARD_DATA_PLACEHOLDER__`. -/
def canonicalChunk3 : String :=
  "</script>\n    <script>\n        // Convert hex string to Uint8Array\n        function hexToBytes(hex) \x7b\n            const bytes = new Uint8Array(hex.length / 2);\n" ++
  "            for (let i = 0; i < hex.length; i += 2) \x7b\n                bytes[i / 2] = parseInt(hex.substr(i, 2), 16);\n" ++
  "            \x7d\n            return bytes;\n        \x7d\n        \n        // Fetch encryption key from Firestore (secure, requires auth)\n" ++
  "        async function fetchKeyFromFirestore() \x7b\n            const db = firebase.firestore();\n            const doc = await db.collection('config').doc('dashboard').get();\n" ++
  "            if (!doc.exists) return null;\n            const data = doc.data() || \x7b\x7d;\n            return data.encryptionKey || null;\n" ++
  "        \x7d\n        \n        // Import raw key bytes as CryptoKey\n        async function importKey(keyHex) \x7b\n" ++
  "            const keyBytes = hexToBytes(keyHex);\n            return await crypto.subtle.importKey(\n                'raw',\n" ++
  "                keyBytes,\n                \x7b name: 'AES-GCM', length: 256 \x7d,\n                false,\n                ['decrypt']\n" ++
  "            );\n        \x7d\n        \n        // Decrypt AES-GCM encrypted dashboard\n        async function decryptDashboard(encryptedHex, keyHex) \x7b\n" ++
  "            const encrypted = hexToBytes(encryptedHex);\n            const nonce = encrypted.slice(0, 12);  // First 12 bytes are nonce\n" ++
  "            const ciphertext = encrypted.slice(12);  // Rest is ciphertext + tag\n            \n            const key = await importKey(keyHex);\n" ++
  "            \n            const decrypted = await crypto.subtle.decrypt(\n                \x7b name: 'AES-GCM', iv: nonce \x7d,\n" ++
  "                key,\n                ciphertext\n            );\n            \n            return new TextDecoder().decode(decrypted);\n" ++
  "        \x7d\n        \n        function signIn() \x7b\n            const provider = new firebase.auth.GoogleAuthProvider();\n" ++
  "            firebase.auth().signInWithPopup(provider).catch(error => \x7b showError('Sign-in failed: ' + error.message); \x7d);\n" ++
  "        \x7d\n        function signOut() \x7b firebase.auth().signOut(); \x7d\n        function showError(message, showSignOut = false) \x7b\n" ++
  "            const errorEl = document.getElementById('error');\n            errorEl.textContent = message;\n            errorEl.style.display = 'block';\n" ++
  "            document.getElementById('loading').classList.add('hidden');\n            document.getElementById('sign-out-btn').style.display = showSignOut ? 'inline-block' : 'none';\n" ++
  "        \x7d\n        async function showDashboard() \x7b\n            const encryptedData = document.getElementById('dashboard-data').textContent.trim();\n" ++
  "            if (encryptedData && !encryptedData.includes('PLACEHOLDER')) \x7b\n                try \x7b\n                    // Get encryption key from Firestore (required)\n" ++
  "                    const keyHex = await fetchKeyFromFirestore();\n                    if (!keyHex) \x7b\n                        throw new Error('Could not retrieve encryption key');\n" ++
  "                    \x7d\n                    \n                    // Decrypt the dashboard using AES-GCM\n                    const dashboardHtml = await decryptDashboard(encryptedData, keyHex);\n" ++
  "                    \n                    const parser = new DOMParser();\n                    const doc = parser.parseFromString(dashboardHtml, 'text/html');\n" ++
  "                    doc.querySelectorAll('style').forEach(style => \x7b document.head.appendChild(style.cloneNode(true)); \x7d);\n" ++
  "                    document.getElementById('dashboard-container').innerHTML = doc.body.innerHTML;\n                    const externalScripts = [];\n" ++
  "                    const inlineScripts = [];\n                    doc.querySelectorAll('script').forEach(script => \x7b\n" ++
  "                        if (script.src) \x7b externalScripts.push(script.src); \x7d\n                        else if (script.textContent.trim()) \x7b inlineScripts.push(script.textContent); \x7d\n" ++
  "                    \x7d);\n                    function loadExternalScripts(urls, callback) \x7b\n                        if (urls.length === 0) \x7b callback(); return; \x7d\n" ++
  "                        let loaded = 0;\n                        urls.forEach(url => \x7b\n                            const s = document.createElement('script');\n" ++
  "                            s.src = url;\n                            s.onload = s.onerror = () => \x7b loaded++; if (loaded === urls.length) callback(); \x7d;\n" ++
  "                            document.body.appendChild(s);\n                        \x7d);\n                    \x7d\n" ++
  "                    loadExternalScripts(externalScripts, () => \x7b\n                        inlineScripts.forEach(code => \x7b const s = document.createElement('script'); s.textContent = code; document.body.appendChild(s); \x7d);\n" ++
  "                    \x7d);\n                    document.body.classList.add('authenticated');\n                \x7d catch (e) \x7b\n" ++
  "                    if (e && e.code === 'permission-denied') \x7b\n                        showError('Access denied. Your account is not authorized.', true);\n" ++
  "                        return;\n                    \x7d\n                    showError('Failed to decrypt dashboard: ' + (e?.message || String(e)));\n" ++
  "                \x7d\n            \x7d else \x7b showError('Dashboard content not available'); \x7d\n        \x7d\n" ++
  "        document.addEventListener('DOMContentLoaded', function() \x7b\n            setTimeout(() => \x7b\n                firebase.auth().onAuthStateChanged(async user => \x7b\n" ++
  "                    if (user) \x7b\n                        document.getElementById('loading').classList.remove('hidden');\n" ++
  "                        document.getElementById('sign-in-btn').classList.add('hidden');\n                        await showDashboard();\n" ++
  "                    \x7d else \x7b\n                        document.body.classList.remove('authenticated');\n                        document.getElementById('login-container').classList.remove('hidden');\n" ++
  "                        document.getElementById('sign-in-btn').classList.remove('hidden');\n                        document.getElementById('loading').classList.add('hidden');\n" ++
  "                        document.getElementById('error').style.display = 'none';\n                        document.getElementById('sign-out-btn').style.display = 'none';\n" ++
  "                    \x7d\n                \x7d);\n            \x7d, 500);\n        \x7d);\n    </script>\n</body>\n" ++
  "</html>"

/-- The canonical placeholder template written back by
`restore_index_html` (src/firebase.py:293-467), assembled from its
segments around the three placeholder occurrences. -/
def canonicalTemplate : String :=
  canonicalChunk0 ++ titlePlaceholder ++ canonicalChunk1 ++ titlePlaceholder ++ canonicalChunk2 ++ dataPlaceholder ++ canonicalChunk3

/-- Local file-system state owned by the pipeline: existence of the
`firebase_public` directory, the contents of `firebase_public/index.html`
(the template) and `firebase_public/dashboard.html` (the stray direct
copy), and the contents of the generated dashboard file at
`dashboard_html_path` (`none` models a missing file). -/
structure FsState where
  firebasePublicExists : Bool
  indexHtml : Option String
  dashboardHtml : Option String
  dashboardSrc : Option String

/-- Fallibility oracle for one pipeline run: whether each I/O or library
operation raises, and the hex strings produced by the (randomized)
encryption of the dashboard for this run.  File writes are modelled
atomically (a failed write leaves the file unchanged). -/
structure PipelineOracle where
  encOk : Bool
  encHex : String
  keyHex : String
  indexReadOk : Bool
  indexWriteOk : Bool
  removeOk : Bool
  restoreWriteOk : Bool

/-- Embedding of `prepare_deployment` (src/firebase.py:121-198) as a
state transformer returning (success, new file-system state).  The steps,
in source order: precondition checks on `firebase_public` and
`index.html`; read of the dashboard file and encryption (line 153-162,
one `try` block); the fail-closed Firestore key store (line 164-173);
read/substitute/write of the template (line 175-188, one `try` block,
modelled atomically); best-effort removal of the stray `dashboard.html`
(line 190-196, errors swallowed). -/
def prepare_deployment (fs : FsState) (e : FirebaseEnv) (o : PipelineOracle) :
    Bool × FsState :=
  if !fs.firebasePublicExists then (false, fs)
  else if fs.indexHtml.isNone then (false, fs)
  else
    match fs.dashboardSrc with
    | none => (false, fs)
    | some _dashboardContent =>
      if !o.encOk then (false, fs)
      else if !store_key_in_firestore e o.keyHex (get_allowed_emails e.recipientEmail) then
        (false, fs)
      else
        match fs.indexHtml with
        | none => (false, fs)
        | some content =>
          if !o.indexReadOk then (false, fs)
          else if !o.indexWriteOk then (false, fs)
          else
            let content1 := strReplace content titlePlaceholder e.title
            let content2 := strReplace content1 dataPlaceholder o.encHex
            let fs1 : FsState := { fs with indexHtml := some content2 }
            let fs2 : FsState :=
              match fs1.dashboardHtml with
              | some _ => if o.removeOk then { fs1 with dashboardHtml := none } else fs1
              | none => fs1
            (true, fs2)

/-- Embedding of `restore_index_html` (src/firebase.py:284-473): write the
canonical placeholder template back to `firebase_public/index.html`; a
write error is swallowed (`except Exception: pass`), leaving the file as
it was. -/
def restore_index_html (fs : FsState) (restoreWriteOk : Bool) : FsState :=
  if restoreWriteOk then { fs with indexHtml := some canonicalTemplate } else fs

/-- Observable outcome of one `deploy_dashboard` run: the returned URL,
the final file-system state, and whether `deploy` / `restore_index_html`
were invoked during the run. -/
structure RunResult where
  url : Option (List Char)
  fs : FsState
  deployCalled : Bool
  restoreCalled : Bool

/-- Embedding of `deploy_dashboard` (src/firebase.py:476-497): run
`prepare_deployment`; on failure return `None` immediately (neither
`deploy` nor `restore_index_html` runs); on success run `deploy`, then
`restore_index_html`, and return `deploy`'s result. -/
def deploy_dashboard (fs : FsState) (e : FirebaseEnv) (o : PipelineOracle)
    (w : DeployWorld) : RunResult :=
  match prepare_deployment fs e o with
  | (false, fs1) => { url := none, fs := fs1, deployCalled := false, restoreCalled := false }
  | (true, fs1) =>
    let url := (deploy w).1
    let fs2 := restore_index_html fs1 o.restoreWriteOk
    { url := url, fs := fs2, deployCalled := true, restoreCalled := true }

/-! ## Helper lemmas -/

theorem decodeHexDigits_encodeHexDigits (l : List Nat) :
    decodeHexDigits (encodeHexDigits l) = l := by
  induction l with
  | nil => rfl
  | cons b t ih =>
    have hb : b / 16 * 16 + b % 16 = b := by
      rw [Nat.mul_comm]; exact Nat.div_add_mod b 16
    simp only [encodeHexDigits, decodeHexDigits, hb, ih]

theorem encodeHexDigits_length (l : List Nat) :
    (encodeHexDigits l).length = 2 * l.length := by
  induction l with
  | nil => rfl
  | cons b t ih =>
    simp only [encodeHexDigits, List.length_cons, ih]
    omega

theorem set_append_right_of_le {α : Type} (a b : List α) (i : Nat) (v : α)
    (h : a.length ≤ i) :
    (a ++ b).set i v = a ++ b.set (i - a.length) v := by
  induction a generalizing i with
  | nil => simp
  | cons x t ih =>
    cases i with
    | zero => simp at h
    | succ n =>
      have ht : t.length ≤ n := by simpa using h
      have hstep : (x :: t ++ b).set (n + 1) v = x :: (t ++ b).set n v := rfl
      rw [hstep, ih n ht]
      simp [Nat.succ_sub_succ]

theorem getD_append_right_of_le {α : Type} (a b : List α) (i : Nat) (d : α)
    (h : a.length ≤ i) :
    (a ++ b).getD i d = b.getD (i - a.length) d := by
  induction a generalizing i with
  | nil => simp
  | cons x t ih =>
    cases i with
    | zero => simp at h
    | succ n =>
      have ht : t.length ≤ n := by simpa using h
      simp only [List.cons_append, List.getD_cons_succ, ih n ht, List.length_cons,
        Nat.succ_sub_succ]

theorem flipBit_append_right (a b : List Nat) (i k : Nat) (h : a.length ≤ i) :
    flipBit (a ++ b) i k = a ++ flipBit b (i - a.length) k := by
  unfold flipBit
  rw [getD_append_right_of_le a b i 0 h, set_append_right_of_le a b i _ h]

/-! ## C4: encrypt/decrypt round trip -/

/-- C4: for every plaintext, encrypting with
`encrypt_dashboard_with_random_key` (fresh 12-byte nonce, paired key) and
decrypting the resulting hex payload with the client `decryptDashboard`
(leading 12 bytes as nonce) reproduces the plaintext byte-for-byte,
relative to the AES-GCM library round-trip contract `hrt`. -/
theorem C4_encrypt_decrypt_roundtrip (A : AEAD) (key nonce html : List Nat)
    (hn : nonce.length = 12)
    (hrt : A.dec key nonce (A.enc key nonce html) = some html) :
    decryptDashboard A (encrypt_dashboard_with_random_key A key nonce html).1
      (encrypt_dashboard_with_random_key A key nonce html).2 = some html := by
  simp only [decryptDashboard, encrypt_dashboard_with_random_key,
    decodeHexDigits_encodeHexDigits]
  have h1 : (nonce ++ A.enc key nonce html).take 12 = nonce := by
    rw [← hn]; simp
  have h2 : (nonce ++ A.enc key nonce html).drop 12 = A.enc key nonce html := by
    rw [← hn]; simp
  rw [h1, h2, hrt]

/-- Witness for C4 at a concrete key, nonce and plaintext, with the
round-trip hypothesis discharged by the concrete `checksumAEAD` instance. -/
theorem C4_encrypt_decrypt_roundtrip_witness :
    decryptDashboard checksumAEAD
      (encrypt_dashboard_with_random_key checksumAEAD (List.replicate 32 7)
        (List.replicate 12 3) [104, 105]).1
      (encrypt_dashboard_with_random_key checksumAEAD (List.replicate 32 7)
        (List.replicate 12 3) [104, 105]).2 = some [104, 105] :=
  C4_encrypt_decrypt_roundtrip checksumAEAD (List.replicate 32 7)
    (List.replicate 12 3) [104, 105] (by decide) (by decide)

/-! ## C5: payload and key format -/

/-- C5: `encrypt_dashboard_with_random_key` returns `(payloadHex, keyHex)`
where `keyHex` is exactly the hex encoding of the 32 key bytes drawn by
`os.urandom` for this call (64 hex digits, freshness being the entropy
source's guarantee), and `payloadHex` is exactly the hex encoding of
`nonce ++ ciphertext‖tag` — the 12 fresh nonce bytes followed by the GCM
output whose final 16 bytes are the tag — with no other metadata:
decoding it yields `12 + |plaintext| + 16` bytes whose first 12 are the
nonce.  The 16-byte-tag property of the library primitive is hypothesis
`htag`. -/
theorem C5_payload_format (A : AEAD) (key nonce html : List Nat)
    (hk : key.length = 32) (hn : nonce.length = 12)
    (htag : (A.enc key nonce html).length = html.length + 16) :
    (encrypt_dashboard_with_random_key A key nonce html).2 = encodeHexDigits key ∧
    ((encrypt_dashboard_with_random_key A key nonce html).2).length = 64 ∧
    decodeHexDigits (encrypt_dashboard_with_random_key A key nonce html).2 = key ∧
    (encrypt_dashboard_with_random_key A key nonce html).1
      = encodeHexDigits (nonce ++ A.enc key nonce html) ∧
    decodeHexDigits (encrypt_dashboard_with_random_key A key nonce html).1
      = nonce ++ A.enc key nonce html ∧
    (decodeHexDigits (encrypt_dashboard_with_random_key A key nonce html).1).length
      = 12 + html.length + 16 ∧
    (decodeHexDigits (encrypt_dashboard_with_random_key A key nonce html).1).take 12
      = nonce ∧
    ((decodeHexDigits (encrypt_dashboard_with_random_key A key nonce html).1).drop
      (12 + html.length)).length = 16 := by
  refine ⟨rfl, ?_, ?_, rfl, ?_, ?_, ?_, ?_⟩
  · rw [show (encrypt_dashboard_with_random_key A key nonce html).2
        = encodeHexDigits key from rfl, encodeHexDigits_length, hk]
  · rw [show (encrypt_dashboard_with_random_key A key nonce html).2
        = encodeHexDigits key from rfl, decodeHexDigits_encodeHexDigits]
  · rw [show (encrypt_dashboard_with_random_key A key nonce html).1
        = encodeHexDigits (nonce ++ A.enc key nonce html) from rfl,
      decodeHexDigits_encodeHexDigits]
  · rw [show (encrypt_dashboard_with_random_key A key nonce html).1
        = encodeHexDigits (nonce ++ A.enc key nonce html) from rfl,
      decodeHexDigits_encodeHexDigits, List.length_append, hn, htag]
    omega
  · rw [show (encrypt_dashboard_with_random_key A key nonce html).1
        = encodeHexDigits (nonce ++ A.enc key nonce html) from rfl,
      decodeHexDigits_encodeHexDigits, ← hn]
    simp
  · rw [show (encrypt_dashboard_with_random_key A key nonce html).1
        = encodeHexDigits (nonce ++ A.enc key nonce html) from rfl,
      decodeHexDigits_encodeHexDigits, List.length_drop, List.length_append,
      hn, htag]
    omega

/-- Witness for C5 at a concrete key, nonce and plaintext. -/
theorem C5_payload_format_witness :
    (encrypt_dashboard_with_random_key checksumAEAD (List.replicate 32 7)
        (List.replicate 12 3) [104, 105]).2
      = encodeHexDigits (List.replicate 32 7) ∧
    ((encrypt_dashboard_with_random_key checksumAEAD (List.replicate 32 7)
        (List.replicate 12 3) [104, 105]).2).length = 64 ∧
    decodeHexDigits (encrypt_dashboard_with_random_key checksumAEAD
        (List.replicate 32 7) (List.replicate 12 3) [104, 105]).2
      = List.replicate 32 7 ∧
    (encrypt_dashboard_with_random_key checksumAEAD (List.replicate 32 7)
        (List.replicate 12 3) [104, 105]).1
      = encodeHexDigits (List.replicate 12 3 ++
          checksumAEAD.enc (List.replicate 32 7) (List.replicate 12 3) [104, 105]) ∧
    decodeHexDigits (encrypt_dashboard_with_random_key checksumAEAD
        (List.replicate 32 7) (List.replicate 12 3) [104, 105]).1
      = List.replicate 12 3 ++
          checksumAEAD.enc (List.replicate 32 7) (List.replicate 12 3) [104, 105] ∧
    (decodeHexDigits (encrypt_dashboard_with_random_key checksumAEAD
        (List.replicate 32 7) (List.replicate 12 3) [104, 105]).1).length
      = 12 + 2 + 16 ∧
    (decodeHexDigits (encrypt_dashboard_with_random_key checksumAEAD
        (List.replicate 32 7) (List.replicate 12 3) [104, 105]).1).take 12
      = List.replicate 12 3 ∧
    ((decodeHexDigits (encrypt_dashboard_with_random_key checksumAEAD
        (List.replicate 32 7) (List.replicate 12 3) [104, 105]).1).drop
      (12 + 2)).length = 16 :=
  C5_payload_format checksumAEAD (List.replicate 32 7) (List.replicate 12 3)
    [104, 105] (by decide) (by decide) (by decide)

/-! ## C6: tamper detection -/

/-- C6: flipping any single bit of any byte in the ciphertext-or-tag
portion of a payload produced by `encrypt_dashboard_with_random_key`
(byte index `j` with `12 ≤ j`, past the nonce) makes the client
`decryptDashboard` fail with `none` — it never returns corrupted
plaintext and has no plaintext fallback.  The single-bit-flip rejection
of the AES-GCM primitive itself is hypothesis `htamper`. -/
theorem C6_tamper_rejected (A : AEAD) (key nonce html : List Nat)
    (hn : nonce.length = 12)
    (htamper : ∀ j < (A.enc key nonce html).length, ∀ k < 8,
      A.dec key nonce (flipBit (A.enc key nonce html) j k) = none)
    (j k : Nat) (hj12 : 12 ≤ j) (hj : j < 12 + (A.enc key nonce html).length)
    (hk : k < 8) :
    decryptDashboard A
      (encodeHexDigits (flipBit (decodeHexDigits
        (encrypt_dashboard_with_random_key A key nonce html).1) j k))
      (encrypt_dashboard_with_random_key A key nonce html).2 = none := by
  have hpayload : decodeHexDigits (encrypt_dashboard_with_random_key A key nonce html).1
      = nonce ++ A.enc key nonce html := by
    rw [show (encrypt_dashboard_with_random_key A key nonce html).1
        = encodeHexDigits (nonce ++ A.enc key nonce html) from rfl,
      decodeHexDigits_encodeHexDigits]
  have hflip : flipBit (nonce ++ A.enc key nonce html) j k
      = nonce ++ flipBit (A.enc key nonce html) (j - 12) k := by
    rw [flipBit_append_right nonce _ j k (by omega), hn]
  simp only [decryptDashboard, hpayload, hflip, decodeHexDigits_encodeHexDigits]
  have h1 : (nonce ++ flipBit (A.enc key nonce html) (j - 12) k).take 12 = nonce := by
    rw [← hn]; simp
  have h2 : (nonce ++ flipBit (A.enc key nonce html) (j - 12) k).drop 12
      = flipBit (A.enc key nonce html) (j - 12) k := by
    rw [← hn]; simp
  rw [h1, h2,
    show (encrypt_dashboard_with_random_key A key nonce html).2
      = encodeHexDigits key from rfl, decodeHexDigits_encodeHexDigits]
  exact htamper (j - 12) (by omega) k hk

/-- Witness for C6: a concrete bit flip in the first ciphertext byte of a
concrete payload, with the primitive-rejection hypothesis discharged by
the concrete `checksumAEAD` instance (whose tag detects every single-bit
flip). -/
theorem C6_tamper_rejected_witness :
    decryptDashboard checksumAEAD
      (encodeHexDigits (flipBit (decodeHexDigits
        (encrypt_dashboard_with_random_key checksumAEAD (List.replicate 32 7)
          (List.replicate 12 3) [104, 105]).1) 12 0))
      (encrypt_dashboard_with_random_key checksumAEAD (List.replicate 32 7)
        (List.replicate 12 3) [104, 105]).2 = none :=
  C6_tamper_rejected checksumAEAD (List.replicate 32 7) (List.replicate 12 3)
    [104, 105] (by decide) (by decide) 12 0 (by decide) (by decide) (by decide)

/-! ## Pipeline lemmas and claims C2, C3, C10 -/

theorem prepare_fail_fs (fs : FsState) (e : FirebaseEnv) (o : PipelineOracle)
    (h : (prepare_deployment fs e o).1 = false) :
    (prepare_deployment fs e o).2 = fs := by
  obtain ⟨fpe, ih, dh, ds⟩ := fs
  cases fpe <;> cases ih <;> cases ds <;>
    cases henc : o.encOk <;>
    cases hstore : store_key_in_firestore e o.keyHex (get_allowed_emails e.recipientEmail) <;>
    cases hread : o.indexReadOk <;> cases hwrite : o.indexWriteOk <;>
    simp_all [prepare_deployment]

/-- C2: when the Firestore key-store write would fail for any reason
(missing `FIREBASE_SERVICE_ACCOUNT`, initialization failure, or a `set`
exception — exactly the early-return causes of `_store_key_in_firestore`),
`prepare_deployment` fails, the template file is byte-identical to its
pre-run state (the whole file-system state is unchanged; the template is
only read/written after the key store succeeds), and `deploy_dashboard`
returns `None` without ever invoking `deploy`. -/
theorem C2_fail_closed_on_keystore (fs : FsState) (e : FirebaseEnv)
    (o : PipelineOracle) (w : DeployWorld)
    (hfail : init_firebase_admin e = false ∨ e.firestoreSetOk = false) :
    (prepare_deployment fs e o).1 = false ∧
    (prepare_deployment fs e o).2 = fs ∧
    (deploy_dashboard fs e o w).deployCalled = false ∧
    (deploy_dashboard fs e o w).url = none ∧
    (deploy_dashboard fs e o w).fs = fs := by
  have hstore : store_key_in_firestore e o.keyHex (get_allowed_emails e.recipientEmail)
      = false := by
    unfold store_key_in_firestore
    rcases hfail with h | h
    · simp [h]
    · cases hinit : init_firebase_admin e <;> simp [h]
  have hprep : prepare_deployment fs e o = (false, fs) := by
    obtain ⟨fpe, ih, dh, ds⟩ := fs
    cases fpe <;> cases ds <;> cases henc : o.encOk <;>
      simp_all [prepare_deployment]
  refine ⟨by rw [hprep], by rw [hprep], ?_, ?_, ?_⟩ <;>
    simp [deploy_dashboard, hprep]

/-- Witness for C2: a run with no configured service account; the template
is untouched and `deploy` is never invoked. -/
theorem C2_fail_closed_on_keystore_witness :
    (prepare_deployment ⟨true, some "tmpl", none, some "dash"⟩
        ⟨none, true, true, none, "T"⟩
        ⟨true, "aa", "bb", true, true, true, true⟩).1 = false ∧
    (prepare_deployment ⟨true, some "tmpl", none, some "dash"⟩
        ⟨none, true, true, none, "T"⟩
        ⟨true, "aa", "bb", true, true, true, true⟩).2
      = ⟨true, some "tmpl", none, some "dash"⟩ ∧
    (deploy_dashboard ⟨true, some "tmpl", none, some "dash"⟩
        ⟨none, true, true, none, "T"⟩
        ⟨true, "aa", "bb", true, true, true, true⟩
        ⟨fun _ _ => .raiseOther, fun _ _ => .raiseOther, none, none, none⟩).deployCalled
      = false ∧
    (deploy_dashboard ⟨true, some "tmpl", none, some "dash"⟩
        ⟨none, true, true, none, "T"⟩
        ⟨true, "aa", "bb", true, true, true, true⟩
        ⟨fun _ _ => .raiseOther, fun _ _ => .raiseOther, none, none, none⟩).url
      = none ∧
    (deploy_dashboard ⟨true, some "tmpl", none, some "dash"⟩
        ⟨none, true, true, none, "T"⟩
        ⟨true, "aa", "bb", true, true, true, true⟩
        ⟨fun _ _ => .raiseOther, fun _ _ => .raiseOther, none, none, none⟩).fs
      = ⟨true, some "tmpl", none, some "dash"⟩ :=
  C2_fail_closed_on_keystore ⟨true, some "tmpl", none, some "dash"⟩
    ⟨none, true, true, none, "T"⟩ ⟨true, "aa", "bb", true, true, true, true⟩
    ⟨fun _ _ => .raiseOther, fun _ _ => .raiseOther, none, none, none⟩
    (Or.inl rfl)

/-- Counterexample to C3 as stated: an invocation of `deploy_dashboard` in
which `restore_index_html` is never called — when `prepare_deployment`
fails (here: the `firebase_public` directory is missing),
`deploy_dashboard` returns `None` on line 490 without reaching the
restore step on line 495. -/
theorem C3_counterexample :
    (deploy_dashboard ⟨false, none, none, none⟩
      ⟨some "sa", true, true, none, "T"⟩
      ⟨true, "aa", "bb", true, true, true, true⟩
      ⟨fun _ _ => .raiseOther, fun _ _ => .raiseOther, none, none, none⟩).restoreCalled
    = false := rfl

/-- C3 (amended): `restore_index_html` runs exactly when
`prepare_deployment` succeeds — it then runs regardless of the deploy
outcome; when preparation fails, `deploy_dashboard` returns `None`
without calling restore (the template was not modified on those paths). -/
theorem C3_restore_iff_prepare (fs : FsState) (e : FirebaseEnv)
    (o : PipelineOracle) (w : DeployWorld) :
    (deploy_dashboard fs e o w).restoreCalled = (prepare_deployment fs e o).1 := by
  unfold deploy_dashboard
  rcases hp : prepare_deployment fs e o with ⟨b, fs1⟩
  cases b <;> simp

/-- C10: cleanup is transparent — `restore_index_html` swallows write
errors and the stray-`dashboard.html` removal swallows removal errors
(this is definitional in the model: both are total and leave state
unchanged on failure), so whenever `prepare_deployment` succeeds,
`deploy_dashboard` returns exactly `deploy`'s result, for every oracle,
including runs where the restore write and the removal fail. -/
theorem C10_cleanup_transparent (fs : FsState) (e : FirebaseEnv)
    (o : PipelineOracle) (w : DeployWorld)
    (hprep : (prepare_deployment fs e o).1 = true) :
    (deploy_dashboard fs e o w).url = (deploy w).1 ∧
    (deploy_dashboard fs e o w).deployCalled = true ∧
    (deploy_dashboard fs e o w).restoreCalled = true := by
  unfold deploy_dashboard
  rcases hp : prepare_deployment fs e o with ⟨b, fs1⟩
  rw [hp] at hprep
  cases b
  · exact absurd hprep (by simp)
  · simp

/-- Witness for C10: a successful preparation whose restore write and
removal both fail; the returned value is still exactly `deploy`'s
result. -/
theorem C10_cleanup_transparent_witness :
    (deploy_dashboard ⟨true, some "t", some "stray", some "dash"⟩
        ⟨some "sa", true, true, none, "T"⟩
        ⟨true, "aa", "bb", true, true, false, false⟩
        ⟨fun _ _ => .raiseOther, fun _ _ => .raiseOther, none, none, none⟩).url
      = (deploy ⟨fun _ _ => .raiseOther, fun _ _ => .raiseOther, none, none, none⟩).1 ∧
    (deploy_dashboard ⟨true, some "t", some "stray", some "dash"⟩
        ⟨some "sa", true, true, none, "T"⟩
        ⟨true, "aa", "bb", true, true, false, false⟩
        ⟨fun _ _ => .raiseOther, fun _ _ => .raiseOther, none, none, none⟩).deployCalled
      = true ∧
    (deploy_dashboard ⟨true, some "t", some "stray", some "dash"⟩
        ⟨some "sa", true, true, none, "T"⟩
        ⟨true, "aa", "bb", true, true, false, false⟩
        ⟨fun _ _ => .raiseOther, fun _ _ => .raiseOther, none, none, none⟩).restoreCalled
      = true :=
  C10_cleanup_transparent ⟨true, some "t", some "stray", some "dash"⟩
    ⟨some "sa", true, true, none, "T"⟩ ⟨true, "aa", "bb", true, true, false, false⟩
    ⟨fun _ _ => .raiseOther, fun _ _ => .raiseOther, none, none, none⟩
    (by decide)

/-! ## C1: template placeholder invariant -/

theorem titlePlaceholder_infix_canonical :
    titlePlaceholder.data <:+: canonicalTemplate.data := by
  refine ⟨canonicalChunk0.data,
    (canonicalChunk1 ++ titlePlaceholder ++ canonicalChunk2 ++ dataPlaceholder
      ++ canonicalChunk3).data, ?_⟩
  simp [canonicalTemplate, List.append_assoc]

theorem dataPlaceholder_infix_canonical :
    dataPlaceholder.data <:+: canonicalTemplate.data := by
  refine ⟨(canonicalChunk0 ++ titlePlaceholder ++ canonicalChunk1 ++ titlePlaceholder
      ++ canonicalChunk2).data, canonicalChunk3.data, ?_⟩
  simp [canonicalTemplate, List.append_assoc]

/-- Counterexample to C1 as stated: an execution of `deploy_dashboard` in
which the template does NOT end the run with its placeholders.  The
template starts with both placeholders, preparation succeeds and injects
the ciphertext hex `"ab"` (title `"x"`), deploy runs, and then the
restore write fails — the failure is swallowed by
`except Exception: pass` (src/firebase.py:472-473) — so the file ends the
run as `"x ab"`: no placeholders, and the live ciphertext is still
present. -/
theorem C1_counterexample :
    (deploy_dashboard
      ⟨true, some "__TITLE_PLACEHOLDER__ __DASHBOARD_DATA_PLACEHOLDER__", none, some "dash"⟩
      ⟨some "sa", true, true, none, "x"⟩
      ⟨true, "ab", "cd", true, true, true, false⟩
      ⟨fun _ _ => .completed 0 [] [], fun _ _ => .raiseOther, none, none, none⟩).fs.indexHtml
      = some "x ab" ∧
    ¬ (titlePlaceholder.data <:+: "x ab".data) ∧
    ¬ (dataPlaceholder.data <:+: "x ab".data) ∧
    "ab".data <:+: "x ab".data := by
  refine ⟨by decide, by decide, by decide, by decide⟩

/-- C1 (amended): provided the restore write succeeds (restore errors are
swallowed, so a failed restore can leave live ciphertext on disk — the
counterexample above), every exit path of `deploy_dashboard` leaves the
template either byte-identical to its pre-run state (all preparation
failures leave it untouched) or equal to the canonical placeholder
template; in particular after every run in which preparation succeeded —
including a full successful publish cycle — it equals the canonical
placeholder template byte-for-byte, which contains both literal
placeholders. -/
theorem C1_template_restore_amended (fs : FsState) (e : FirebaseEnv)
    (o : PipelineOracle) (w : DeployWorld)
    (hrestore : o.restoreWriteOk = true) :
    ((deploy_dashboard fs e o w).fs.indexHtml = fs.indexHtml ∨
      (deploy_dashboard fs e o w).fs.indexHtml = some canonicalTemplate) ∧
    ((prepare_deployment fs e o).1 = true →
      (deploy_dashboard fs e o w).fs.indexHtml = some canonicalTemplate) ∧
    titlePlaceholder.data <:+: canonicalTemplate.data ∧
    dataPlaceholder.data <:+: canonicalTemplate.data := by
  refine ⟨?_, ?_, titlePlaceholder_infix_canonical, dataPlaceholder_infix_canonical⟩
  · rcases hp : prepare_deployment fs e o with ⟨b, fs1⟩
    cases b
    · have hfs1 : fs1 = fs := by
        have h2 := prepare_fail_fs fs e o (by rw [hp])
        rw [hp] at h2
        exact h2
      left
      simp [deploy_dashboard, hp, hfs1]
    · right
      simp [deploy_dashboard, hp, restore_index_html, hrestore]
  · intro hp1
    rcases hp : prepare_deployment fs e o with ⟨b, fs1⟩
    rw [hp] at hp1
    cases b
    · exact absurd hp1 (by simp)
    · simp [deploy_dashboard, hp, restore_index_html, hrestore]

/-- Witness for C1 (amended) at a concrete run whose restore write
succeeds. -/
theorem C1_template_restore_amended_witness :
    ((deploy_dashboard ⟨true, some "t", none, some "dash"⟩
        ⟨some "sa", true, true, none, "T"⟩
        ⟨true, "aa", "bb", true, true, true, true⟩
        ⟨fun _ _ => .raiseOther, fun _ _ => .raiseOther, none, none, none⟩).fs.indexHtml
        = (⟨true, some "t", none, some "dash"⟩ : FsState).indexHtml ∨
      (deploy_dashboard ⟨true, some "t", none, some "dash"⟩
        ⟨some "sa", true, true, none, "T"⟩
        ⟨true, "aa", "bb", true, true, true, true⟩
        ⟨fun _ _ => .raiseOther, fun _ _ => .raiseOther, none, none, none⟩).fs.indexHtml
        = some canonicalTemplate) ∧
    ((prepare_deployment ⟨true, some "t", none, some "dash"⟩
        ⟨some "sa", true, true, none, "T"⟩
        ⟨true, "aa", "bb", true, true, true, true⟩).1 = true →
      (deploy_dashboard ⟨true, some "t", none, some "dash"⟩
        ⟨some "sa", true, true, none, "T"⟩
        ⟨true, "aa", "bb", true, true, true, true⟩
        ⟨fun _ _ => .raiseOther, fun _ _ => .raiseOther, none, none, none⟩).fs.indexHtml
        = some canonicalTemplate) ∧
    titlePlaceholder.data <:+: canonicalTemplate.data ∧
    dataPlaceholder.data <:+: canonicalTemplate.data :=
  C1_template_restore_amended ⟨true, some "t", none, some "dash"⟩
    ⟨some "sa", true, true, none, "T"⟩ ⟨true, "aa", "bb", true, true, true, true⟩
    ⟨fun _ _ => .raiseOther, fun _ _ => .raiseOther, none, none, none⟩ rfl

/-! ## C7: hosting URL extraction -/

theorem splitNL_no_newline (l : List Char) (h : ∀ c ∈ l, c ≠ '\n') :
    splitNL l = [l] := by
  induction l with
  | nil => rfl
  | cons c rest ih =>
    have hc : ¬ (c = '\n') := h c (List.mem_cons_self c rest)
    have hrest : splitNL rest = [rest] := ih (fun x hx => h x (List.mem_cons_of_mem _ hx))
    simp [splitNL, hc, hrest]

theorem hostingMarker_ne_empty : hostingMarker ≠ [] := by decide

theorem hostingMarker_length : hostingMarker.length = 12 := by decide

theorem hostingMarker_cons : hostingMarker = 'H' :: "osting URL:".data := by decide

theorem prefix_head_H {c : Char} {rest : List Char}
    (h : hostingMarker <+: c :: rest) : c = 'H' := by
  obtain ⟨t, ht⟩ := h
  rw [hostingMarker_cons, List.cons_append] at ht
  injection ht with h1 _
  exact h1.symm

theorem splitOnSubF_no_H (f : Nat) (s acc : List Char) (hf : s.length ≤ f)
    (h : ∀ c ∈ s, c ≠ 'H') :
    splitOnSubF hostingMarker f s acc = [acc.reverse ++ s] := by
  induction f generalizing s acc with
  | zero => rfl
  | succ f ih =>
    cases s with
    | nil => simp [splitOnSubF]
    | cons c rest =>
      have hc : c ≠ 'H' := h c (List.mem_cons_self _ _)
      have hcond : ¬ (hostingMarker ≠ [] ∧ hostingMarker <+: (c :: rest)) := by
        rintro ⟨_, hpre⟩
        exact hc (prefix_head_H hpre)
      have hlen : rest.length ≤ f := by
        simp only [List.length_cons] at hf
        omega
      simp only [splitOnSubF]
      rw [if_neg hcond,
        ih rest (c :: acc) hlen (fun x hx => h x (List.mem_cons_of_mem _ hx))]
      simp

theorem splitOnSubF_at_marker (f : Nat) (b acc : List Char)
    (hf : 12 + b.length ≤ f) (hb : ∀ c ∈ b, c ≠ 'H') :
    splitOnSubF hostingMarker f (hostingMarker ++ b) acc = [acc.reverse, b] := by
  cases f with
  | zero => exact absurd hf (by omega)
  | succ f =>
    obtain ⟨c, rest, hM⟩ : ∃ c rest, hostingMarker ++ b = c :: rest := by
      cases hM : hostingMarker ++ b with
      | nil =>
        have h12 := congrArg List.length hM
        rw [List.length_append, hostingMarker_length] at h12
        simp at h12
      | cons c rest => exact ⟨c, rest, rfl⟩
    rw [hM]
    have hdrop : (c :: rest).drop hostingMarker.length = b := by
      rw [← hM]; exact List.drop_left _ _
    simp only [splitOnSubF]
    rw [if_pos ⟨hostingMarker_ne_empty, hM ▸ List.prefix_append hostingMarker b⟩,
      hdrop, splitOnSubF_no_H f b [] (by omega) hb]
    simp

theorem splitOnSubF_scan (a : List Char) : ∀ (f : Nat) (b acc : List Char),
    (a ++ hostingMarker ++ b).length ≤ f → (∀ c ∈ a, c ≠ 'H') →
    (∀ c ∈ b, c ≠ 'H') →
    splitOnSubF hostingMarker f (a ++ hostingMarker ++ b) acc
      = [acc.reverse ++ a, b] := by
  induction a with
  | nil =>
    intro f b acc hf ha hb
    have hf' : 12 + b.length ≤ f := by
      simp only [List.nil_append, List.length_append, hostingMarker_length] at hf
      omega
    simpa using splitOnSubF_at_marker f b acc hf' hb
  | cons x t ih =>
    intro f b acc hf ha hb
    cases f with
    | zero =>
      exfalso
      simp only [List.cons_append, List.length_cons] at hf
      omega
    | succ f =>
      have hx : x ≠ 'H' := ha x (List.mem_cons_self _ _)
      have hcond : ¬ (hostingMarker ≠ [] ∧
          hostingMarker <+: x :: (t ++ hostingMarker ++ b)) := by
        rintro ⟨_, hpre⟩
        exact hx (prefix_head_H hpre)
      have hlen : (t ++ hostingMarker ++ b).length ≤ f := by
        simp only [List.cons_append, List.length_cons] at hf
        simpa using Nat.le_of_succ_le_succ hf
      simp only [List.cons_append, splitOnSubF, List.append_eq]
      rw [if_neg hcond,
        ih f b (x :: acc) hlen (fun y hy => ha y (List.mem_cons_of_mem _ hy)) hb]
      simp

theorem splitOnSub_marker (a b : List Char) (ha : ∀ c ∈ a, c ≠ 'H')
    (hb : ∀ c ∈ b, c ≠ 'H') :
    splitOnSub hostingMarker (a ++ hostingMarker ++ b) = [a, b] := by
  unfold splitOnSub
  rw [splitOnSubF_scan a _ b [] le_rfl ha hb]
  simp

theorem dropWhile_all_false (p : Char → Bool) (l : List Char)
    (h : ∀ c ∈ l, p c = false) : l.dropWhile p = l := by
  cases l with
  | nil => rfl
  | cons c rest =>
    rw [List.dropWhile_cons, h c (List.mem_cons_self _ _)]
    simp

theorem pyStrip_no_space (l : List Char) (h : ∀ c ∈ l, isPySpace c = false) :
    pyStrip l = l := by
  unfold pyStrip
  rw [dropWhile_all_false isPySpace l h,
    dropWhile_all_false isPySpace l.reverse (fun c hc => h c (List.mem_reverse.mp hc)),
    List.reverse_reverse]

theorem pyStrip_space_cons (l : List Char) (h : ∀ c ∈ l, isPySpace c = false) :
    pyStrip (' ' :: l) = l := by
  unfold pyStrip
  rw [List.dropWhile_cons, show isPySpace ' ' = true from rfl]
  simp only [if_true]
  rw [dropWhile_all_false isPySpace l h,
    dropWhile_all_false isPySpace l.reverse (fun c hc => h c (List.mem_reverse.mp hc)),
    List.reverse_reverse]

theorem stripAnsiF_nil (f : Nat) : stripAnsiF f [] = [] := by cases f <;> rfl

theorem tryAnsi_none_head (c : Char) (rest : List Char)
    (h1 : c ≠ '\x1b') (h2 : c ≠ '[') : tryAnsi (c :: rest) = none := by
  cases rest with
  | nil => simp [tryAnsi, h2]
  | cons c2 r =>
    have hpair : ¬ (c = '\x1b' ∧ c2 = '[') := fun hp => h1 hp.1
    simp [tryAnsi, hpair, h2]

theorem dropWhile_append_all (p : Char → Bool) (d l : List Char)
    (hd : ∀ c ∈ d, p c = true) : (d ++ l).dropWhile p = l.dropWhile p := by
  induction d with
  | nil => rfl
  | cons c t ih =>
    rw [List.cons_append, List.dropWhile_cons, hd c (List.mem_cons_self _ _)]
    simp only [if_true]
    exact ih (fun x hx => hd x (List.mem_cons_of_mem _ hx))

theorem ansiTail_digits (d rem : List Char)
    (hd : ∀ c ∈ d, (c.isDigit || c = ';') = true) :
    ansiTail (d ++ 'm' :: rem) = some rem := by
  unfold ansiTail
  rw [dropWhile_append_all _ d _ hd, List.dropWhile_cons,
    show (('m').isDigit || 'm' = ';') = false from rfl]
  simp

theorem tryAnsi_esc (d rem : List Char)
    (hd : ∀ c ∈ d, (c.isDigit || c = ';') = true) :
    tryAnsi ('\x1b' :: '[' :: (d ++ 'm' :: rem)) = some rem := by
  simp only [tryAnsi, if_pos (And.intro rfl rfl)]
  exact ansiTail_digits d rem hd

theorem stripAnsiF_clean_append_esc (u d : List Char) : ∀ (f : Nat),
    (∀ c ∈ u, c ≠ '\x1b' ∧ c ≠ '[') →
    (∀ c ∈ d, (c.isDigit || c = ';') = true) →
    u.length + 1 ≤ f →
    stripAnsiF f (u ++ '\x1b' :: '[' :: (d ++ ['m'])) = u := by
  induction u with
  | nil =>
    intro f hu hd hf
    cases f with
    | zero => exact absurd hf (by omega)
    | succ f =>
      have : (d ++ ['m'] : List Char) = d ++ 'm' :: [] := rfl
      simp only [List.nil_append, stripAnsiF, this, tryAnsi_esc d [] hd]
      exact stripAnsiF_nil f
  | cons x t ih =>
    intro f hu hd hf
    cases f with
    | zero => exact absurd hf (by omega)
    | succ f =>
      have hx := hu x (List.mem_cons_self _ _)
      simp only [List.cons_append, stripAnsiF, List.append_eq,
        tryAnsi_none_head x _ hx.1 hx.2]
      rw [ih f (fun y hy => hu y (List.mem_cons_of_mem _ hy)) hd
        (by simp only [List.length_cons] at hf; omega)]

theorem stripAnsi_clean_append_esc (u d : List Char)
    (hu : ∀ c ∈ u, c ≠ '\x1b' ∧ c ≠ '[')
    (hd : ∀ c ∈ d, (c.isDigit || c = ';') = true) :
    stripAnsi (u ++ '\x1b' :: '[' :: (d ++ ['m'])) = u := by
  unfold stripAnsi
  exact stripAnsiF_clean_append_esc u d _ hu hd (by simp [List.length_append])

theorem deployParseURL_none (lines : List (List Char))
    (h : ∀ ln ∈ lines, ¬ (hostingMarker <:+: ln)) : deployParseURL lines = none := by
  induction lines with
  | nil => rfl
  | cons ln rest ih =>
    simp only [deployParseURL, if_neg (h ln (List.mem_cons_self _ _))]
    exact ih (fun x hx => h x (List.mem_cons_of_mem _ hx))


theorem digitSemi_ne (c : Char) (h : (c.isDigit || c = ';') = true) :
    c ≠ 'H' ∧ c ≠ '\n' ∧ isPySpace c = false := by
  refine ⟨?_, ?_, ?_⟩
  · rintro rfl; exact absurd h (by decide)
  · rintro rfl; exact absurd h (by decide)
  · by_contra hsp
    rw [Bool.not_eq_false] at hsp
    have hcases : c = ' ' ∨ c = '\t' ∨ c = '\n' ∨ c = '\r' ∨ c = '\x0b' ∨ c = '\x0c' := by
      simpa [isPySpace, Bool.or_eq_true, decide_eq_true_eq, or_assoc] using hsp
    rcases hcases with rfl | rfl | rfl | rfl | rfl | rfl <;> exact absurd h (by decide)

theorem hostingMarker_chars : ∀ c ∈ hostingMarker, c ≠ '\n' := by decide

/-- C7: if the deploy command exits with status 0 and its stdout is a line
of the shape `ESC [ d1 m Hosting URL: <url> ESC [ d2 m` (`d1`, `d2` runs
of digits/semicolons; the url non-empty, free of whitespace, newlines,
escape characters, `[` and `H`, as any real URL printed there is), then
`deploy` returns exactly the url: the text after the marker, with the
`ESC [ ... m` escape sequences stripped and surrounding whitespace
removed. -/
theorem C7_url_extraction (w : DeployWorld) (url d1 d2 stderr : List Char)
    (hurl : ∀ c ∈ url, c ≠ '\x1b' ∧ c ≠ '[' ∧ c ≠ '\n' ∧ c ≠ 'H' ∧ isPySpace c = false)
    (hd1 : ∀ c ∈ d1, (c.isDigit || c = ';') = true)
    (hd2 : ∀ c ∈ d2, (c.isDigit || c = ';') = true)
    (hrun : w.runDirect (buildCmdParts w.envProject w.envToken) 120
      = .completed 0
          (('\x1b' :: '[' :: (d1 ++ ['m'])) ++ hostingMarker
            ++ (' ' :: (url ++ '\x1b' :: '[' :: (d2 ++ ['m'])))) stderr) :
    (deploy w).1 = some url := by
  have ha_noH : ∀ c ∈ ('\x1b' :: '[' :: (d1 ++ ['m']) : List Char), c ≠ 'H' := by
    intro c hc
    simp only [List.mem_cons, List.mem_append, List.not_mem_nil, or_false,
      or_assoc] at hc
    rcases hc with rfl | rfl | hc | rfl
    · decide
    · decide
    · exact (digitSemi_ne c (hd1 c hc)).1
    · decide
  have hb_noH : ∀ c ∈ (' ' :: (url ++ '\x1b' :: '[' :: (d2 ++ ['m']))), c ≠ 'H' := by
    intro c hc
    simp only [List.mem_cons, List.mem_append, List.not_mem_nil, or_false,
      or_assoc] at hc
    rcases hc with rfl | hc | rfl | rfl | hc | rfl
    · decide
    · exact (hurl c hc).2.2.2.1
    · decide
    · decide
    · exact (digitSemi_ne c (hd2 c hc)).1
    · decide
  have hnoNL : ∀ c ∈ (('\x1b' :: '[' :: (d1 ++ ['m'])) ++ hostingMarker
      ++ (' ' :: (url ++ '\x1b' :: '[' :: (d2 ++ ['m'])))), c ≠ '\n' := by
    intro c hc
    simp only [List.mem_cons, List.mem_append, List.not_mem_nil, or_false,
      or_assoc] at hc
    rcases hc with rfl | rfl | hc | rfl | hc | rfl | hc | rfl | rfl | hc | rfl
    · decide
    · decide
    · exact (digitSemi_ne c (hd1 c hc)).2.1
    · decide
    · exact hostingMarker_chars c hc
    · decide
    · exact (hurl c hc).2.2.1
    · decide
    · decide
    · exact (digitSemi_ne c (hd2 c hc)).2.1
    · decide
  have hsplit : splitNL (('\x1b' :: '[' :: (d1 ++ ['m'])) ++ hostingMarker
      ++ (' ' :: (url ++ '\x1b' :: '[' :: (d2 ++ ['m'])))) = [_] :=
    splitNL_no_newline _ hnoNL
  have hinfix : hostingMarker <:+: (('\x1b' :: '[' :: (d1 ++ ['m'])) ++ hostingMarker
      ++ (' ' :: (url ++ '\x1b' :: '[' :: (d2 ++ ['m'])))) :=
    ⟨'\x1b' :: '[' :: (d1 ++ ['m']), ' ' :: (url ++ '\x1b' :: '[' :: (d2 ++ ['m'])), rfl⟩
  have hlast : pySplitLast hostingMarker (('\x1b' :: '[' :: (d1 ++ ['m'])) ++ hostingMarker
      ++ (' ' :: (url ++ '\x1b' :: '[' :: (d2 ++ ['m']))))
      = ' ' :: (url ++ '\x1b' :: '[' :: (d2 ++ ['m'])) := by
    unfold pySplitLast
    rw [splitOnSub_marker _ _ ha_noH hb_noH]
    rfl
  have hnospace : ∀ c ∈ (url ++ '\x1b' :: '[' :: (d2 ++ ['m'])), isPySpace c = false := by
    intro c hc
    simp only [List.mem_cons, List.mem_append, List.not_mem_nil, or_false,
      or_assoc] at hc
    rcases hc with hc | rfl | rfl | hc | rfl
    · exact (hurl c hc).2.2.2.2
    · decide
    · decide
    · exact (digitSemi_ne c (hd2 c hc)).2.2
    · decide
  have hstrip1 : pyStrip (' ' :: (url ++ '\x1b' :: '[' :: (d2 ++ ['m'])))
      = url ++ '\x1b' :: '[' :: (d2 ++ ['m']) := pyStrip_space_cons _ hnospace
  have hansi : stripAnsi (url ++ '\x1b' :: '[' :: (d2 ++ ['m'])) = url :=
    stripAnsi_clean_append_esc url d2
      (fun c hc => ⟨(hurl c hc).1, (hurl c hc).2.1⟩) hd2
  have hstrip2 : pyStrip url = url :=
    pyStrip_no_space url (fun c hc => (hurl c hc).2.2.2.2)
  have hparse : deployParseURL [(('\x1b' :: '[' :: (d1 ++ ['m'])) ++ hostingMarker
      ++ (' ' :: (url ++ '\x1b' :: '[' :: (d2 ++ ['m']))))] = some url := by
    simp only [deployParseURL, if_pos hinfix]
    rw [hlast, hstrip1, hansi, hstrip2]
  simp only [deploy]
  rw [hrun]
  show (deployAfterRun 0 _ stderr w.firebaserc).1 = some url
  unfold deployAfterRun
  rw [if_neg (by simp : ¬ (0 : Int) ≠ 0), hsplit, hparse]

/-- Witness for C7 at the spec's example line
`"\x1b[32mHosting URL: https://proj.web.app\x1b[0m"`. -/
theorem C7_url_extraction_witness :
    (deploy ⟨fun _ _ => .completed 0
        (('\x1b' :: '[' :: (['3', '2'] ++ ['m'])) ++ hostingMarker
          ++ (' ' :: ("https://proj.web.app".data ++ '\x1b' :: '[' :: (['0'] ++ ['m'])))) [],
      fun _ _ => .raiseOther, none, none, none⟩).1
      = some "https://proj.web.app".data :=
  C7_url_extraction _ "https://proj.web.app".data ['3', '2'] ['0'] []
    (by decide) (by decide) (by decide) rfl

/-! ## C8: .firebaserc fallback URL -/

/-- C8: when the deploy command exits 0 but no stdout line contains the
`"Hosting URL:"` marker, `deploy` falls back to `.firebaserc`: a parse of
`{"projects": {"default": p}}` with non-empty string `p` yields
`https://p.web.app`; a missing/unparsable file, an object without
`projects`, or a `projects` object without `default` all yield the
URL-unavailable result `none`. -/
theorem C8_firebaserc_fallback (w : DeployWorld) (stdout stderr : List Char) (p : String)
    (hrun : w.runDirect (buildCmdParts w.envProject w.envToken) 120
      = .completed 0 stdout stderr)
    (hnoline : ∀ ln ∈ splitNL stdout, ¬ (hostingMarker <:+: ln)) :
    (w.firebaserc = some (.obj [("projects", .obj [("default", .str p)])]) → p ≠ "" →
      (deploy w).1 = some ("https://" ++ p ++ ".web.app").data) ∧
    (w.firebaserc = none → (deploy w).1 = none) ∧
    (∀ fields, w.firebaserc = some (.obj fields) → lookupLast fields "projects" = none →
      (deploy w).1 = none) ∧
    (∀ pf, w.firebaserc = some (.obj [("projects", .obj pf)]) →
      lookupLast pf "default" = none → (deploy w).1 = none) := by
  have hparse : deployParseURL (splitNL stdout) = none := deployParseURL_none _ hnoline
  have hdeploy : (deploy w).1 = firebasercFallback w.firebaserc := by
    simp only [deploy]
    rw [hrun]
    show (deployAfterRun 0 stdout stderr w.firebaserc).1 = _
    unfold deployAfterRun
    rw [if_neg (by simp : ¬ (0 : Int) ≠ 0), hparse]
  refine ⟨?_, ?_, ?_, ?_⟩
  · intro hfrc hp
    rw [hdeploy, hfrc]
    simp [firebasercFallback, lookupLast, pyTruthy, pyStr, bne_iff_ne, hp]
  · intro hfrc
    rw [hdeploy, hfrc]
    rfl
  · intro fields hfrc hlk
    rw [hdeploy, hfrc]
    simp [firebasercFallback, hlk, lookupLast]
  · intro pf hfrc hlk
    rw [hdeploy, hfrc]
    simp [firebasercFallback, lookupLast, hlk]

/-- Witness for C8 at the spec's example configuration
`{"projects":{"default":"proj"}}` (with empty stdout). -/
theorem C8_firebaserc_fallback_witness :
    (deploy ⟨fun _ _ => .completed 0 [] [], fun _ _ => .raiseOther,
        some (.obj [("projects", .obj [("default", .str "proj")])]), none, none⟩).1
      = some ("https://" ++ "proj" ++ ".web.app").data :=
  (C8_firebaserc_fallback
    ⟨fun _ _ => .completed 0 [] [], fun _ _ => .raiseOther,
      some (.obj [("projects", .obj [("default", .str "proj")])]), none, none⟩
    [] [] "proj" rfl (by decide)).1 rfl (by decide)

/-! ## C9: 120-second timeout, distinct failure kinds -/

/-- C9: both execution strategies are invoked with the 120-second bound —
`deploy`'s result depends on the two subprocess oracles only through
their responses at timeout 120 — and exceeding the timeout produces a
failure kind distinct from a non-zero exit for either strategy: a
strategy-1 timeout logs `log_info "ERROR: Firebase deploy timed out"`,
a strategy-2 timeout is caught by the bare `except Exception` and logs
`log_info "ERROR: Firebase deploy failed"`, while a non-zero exit logs
`log_error "ERROR: Firebase deploy failed" stderr`; the log events
differ in both comparisons. -/
theorem C9_timeout_distinct
    (w : DeployWorld) (f : List String → Nat → ProcResult) (g : String → Nat → ProcResult)
    (hf : f (buildCmdParts w.envProject w.envToken) 120
      = w.runDirect (buildCmdParts w.envProject w.envToken) 120)
    (hg : g (shellCmd w) 120 = w.runShell (shellCmd w) 120)
    (wT wE wST wSE : DeployWorld) (rc rc2 : Int) (out err out2 err2 : List Char)
    (hT : wT.runDirect (buildCmdParts wT.envProject wT.envToken) 120 = .raiseTimeout)
    (hE : wE.runDirect (buildCmdParts wE.envProject wE.envToken) 120
      = .completed rc out err)
    (hrc : rc ≠ 0)
    (hST1 : wST.runDirect (buildCmdParts wST.envProject wST.envToken) 120
      = .raiseNotFound)
    (hST2 : wST.runShell (shellCmd wST) 120 = .raiseTimeout)
    (hSE1 : wSE.runDirect (buildCmdParts wSE.envProject wSE.envToken) 120
      = .raiseNotFound)
    (hSE2 : wSE.runShell (shellCmd wSE) 120 = .completed rc2 out2 err2)
    (hrc2 : rc2 ≠ 0) :
    deploy { w with runDirect := f, runShell := g } = deploy w ∧
    deploy wT = (none, [.info "ERROR: Firebase deploy timed out"]) ∧
    deploy wE = (none, [.error "ERROR: Firebase deploy failed" err]) ∧
    (deploy wT).2 ≠ (deploy wE).2 ∧
    deploy wST = (none, [.info "ERROR: Firebase deploy failed"]) ∧
    deploy wSE = (none, [.error "ERROR: Firebase deploy failed" err2]) ∧
    (deploy wST).2 ≠ (deploy wSE).2 := by
  have h2 : deploy wT = (none, [.info "ERROR: Firebase deploy timed out"]) := by
    simp only [deploy]
    rw [hT]
  have h3 : deploy wE = (none, [.error "ERROR: Firebase deploy failed" err]) := by
    simp only [deploy]
    rw [hE]
    show deployAfterRun rc out err wE.firebaserc = _
    unfold deployAfterRun
    rw [if_pos hrc]
  have h5 : deploy wST = (none, [.info "ERROR: Firebase deploy failed"]) := by
    simp only [deploy]
    rw [hST1, hST2]
  have h6 : deploy wSE = (none, [.error "ERROR: Firebase deploy failed" err2]) := by
    simp only [deploy]
    rw [hSE1, hSE2]
    show deployAfterRun rc2 out2 err2 wSE.firebaserc = _
    unfold deployAfterRun
    rw [if_pos hrc2]
  refine ⟨?_, h2, h3, ?_, h5, h6, ?_⟩
  · have hsh : shellCmd { w with runDirect := f, runShell := g } = shellCmd w := rfl
    simp only [deploy, hf, hsh, hg]
  · rw [h2, h3]
    simp
  · rw [h5, h6]
    simp

/-- Witness for C9 at concrete worlds exhibiting each outcome. -/
theorem C9_timeout_distinct_witness :
    deploy { (⟨fun _ _ => .raiseOther, fun _ _ => .raiseOther, none, none, none⟩ : DeployWorld)
        with runDirect := fun _ _ => .raiseOther, runShell := fun _ _ => .raiseOther }
      = deploy ⟨fun _ _ => .raiseOther, fun _ _ => .raiseOther, none, none, none⟩ ∧
    deploy ⟨fun _ _ => .raiseTimeout, fun _ _ => .raiseOther, none, none, none⟩
      = (none, [.info "ERROR: Firebase deploy timed out"]) ∧
    deploy ⟨fun _ _ => .completed 1 [] ['e'], fun _ _ => .raiseOther, none, none, none⟩
      = (none, [.error "ERROR: Firebase deploy failed" ['e']]) ∧
    (deploy ⟨fun _ _ => .raiseTimeout, fun _ _ => .raiseOther, none, none, none⟩).2
      ≠ (deploy ⟨fun _ _ => .completed 1 [] ['e'], fun _ _ => .raiseOther, none, none, none⟩).2 ∧
    deploy ⟨fun _ _ => .raiseNotFound, fun _ _ => .raiseTimeout, none, none, none⟩
      = (none, [.info "ERROR: Firebase deploy failed"]) ∧
    deploy ⟨fun _ _ => .raiseNotFound, fun _ _ => .completed 1 [] ['f'], none, none, none⟩
      = (none, [.error "ERROR: Firebase deploy failed" ['f']]) ∧
    (deploy ⟨fun _ _ => .raiseNotFound, fun _ _ => .raiseTimeout, none, none, none⟩).2
      ≠ (deploy ⟨fun _ _ => .raiseNotFound, fun _ _ => .completed 1 [] ['f'], none, none, none⟩).2 :=
  C9_timeout_distinct
    ⟨fun _ _ => .raiseOther, fun _ _ => .raiseOther, none, none, none⟩
    (fun _ _ => .raiseOther) (fun _ _ => .raiseOther) rfl rfl
    ⟨fun _ _ => .raiseTimeout, fun _ _ => .raiseOther, none, none, none⟩
    ⟨fun _ _ => .completed 1 [] ['e'], fun _ _ => .raiseOther, none, none, none⟩
    ⟨fun _ _ => .raiseNotFound, fun _ _ => .raiseTimeout, none, none, none⟩
    ⟨fun _ _ => .raiseNotFound, fun _ _ => .completed 1 [] ['f'], none, none, none⟩
    1 1 [] ['e'] [] ['f'] rfl rfl (by decide) rfl rfl rfl rfl (by decide)
